import Mathlib

/-!
Verification of the draw-pass orchestrator (`src/mol-canvas3d/passes/draw.ts`)
and the outline post-process shader (`src/mol-gl/shader/outlines.frag.ts`)
of the molstar rendering pipeline.

The orchestrator (`DrawPass`) is embedded as a record of its owned GPU
resources (render targets, standalone depth textures, uniform size cells,
optional WBOIT pass) together with trace semantics: each render method is a
function producing the list of externally visible GPU calls it issues, in
program order.  Fallible methods return `Except String (List Event)`.
-/

namespace Molstar

/-- A GPU texture: image dimensions plus an allocation identity (`id` changes
only when the texture is recreated, never on an in-place resize/define). -/
structure Texture where
  width : Nat
  height : Nat
  id : Nat
deriving DecidableEq, Repr

/-- Method `Texture.define(width, height)`: (re)allocate backing storage in place;
identity is preserved. -/
def Texture.define (t : Texture) (w h : Nat) : Texture :=
  { t with width := w, height := h }

/-- A render target: owns a color texture; `id` is its allocation identity. -/
structure RenderTarget where
  texture : Texture
  id : Nat
deriving DecidableEq, Repr

def RenderTarget.getWidth (rt : RenderTarget) : Nat := rt.texture.width

def RenderTarget.getHeight (rt : RenderTarget) : Nat := rt.texture.height

/-- Method `RenderTarget.setSize(width, height)`: resize in place (the owned texture
is resized, never recreated). -/
def RenderTarget.setSize (rt : RenderTarget) (w h : Nat) : RenderTarget :=
  { rt with texture := rt.texture.define w h }

/-- Modelled from the spec: hardware capability flags consumed from the
graphics context (§6): native depth-texture sampling support, and the
blend/draw-buffer features required by WBOIT. -/
structure Capabilities where
  depthTexture : Bool
  wboitFeatures : Bool
deriving DecidableEq, Repr

/-- Modelled from the spec: `WboitPass` (`src/mol-canvas3d/passes/wboit.ts` is
not in the file set).  §3: its `enabled` flag is true only if WBOIT was
requested at construction and the hardware supports the required features;
§4.3 attaches depth textures directly to framebuffers, so native depth-texture
support is among the required features.  `size` is the dimension its
accumulation buffers report. -/
structure WboitPass where
  enabled : Bool
  size : Nat × Nat
deriving DecidableEq, Repr

/-- Modelled from the spec: per-frame post-processing configuration snapshot
(§3): ambient-occlusion enabled, outline enabled, antialiasing enabled. -/
structure PostprocessingProps where
  occlusionEnabled : Bool
  outlineEnabled : Bool
  antialiasingEnabled : Bool
deriving DecidableEq, Repr

/-- Modelled from the spec: `PostprocessingPass.isEnabled(props)`
(`postprocessing.ts` is not in the file set): the post-processing stage
applies screen-space ambient occlusion and outline (§2, §3), so it is enabled
when either effect is enabled. -/
def PostprocessingPass.isEnabled (props : PostprocessingProps) : Bool :=
  props.occlusionEnabled || props.outlineEnabled

/-- Modelled from the spec: `FxaaPass.isEnabled(props)` (`postprocessing.ts`
is not in the file set): enabled exactly when antialiasing is enabled in the
per-frame configuration (§3, §4.1a). -/
def FxaaPass.isEnabled (props : PostprocessingProps) : Bool :=
  props.antialiasingEnabled

/-- Helper overlay flags (debug, interaction handles, camera gizmo), each
independently toggle-able (§6). -/
structure Helper where
  debugEnabled : Bool
  handleEnabled : Bool
  cameraEnabled : Bool
deriving DecidableEq, Repr

/-- The draw-pass orchestrator state: every owned render target / texture /
uniform cell of the `DrawPass` class, mirrored field by field.
`depthTargetPrimitives` / `depthTargetVolumes` are `some` exactly when
`packedDepth` holds (constructor lines 116-117); the standalone depth
textures are used when they are `none` (line 119-120).  The post-processing
and antialiasing stage targets are modelled from the spec (stages own a
target each, wired to this orchestrator, resized via their `setSize`). -/
structure DrawPass where
  packedDepth : Bool
  colorTarget : RenderTarget
  depthTarget : RenderTarget
  depthTargetPrimitives : Option RenderTarget
  depthTargetVolumes : Option RenderTarget
  depthTexPrimitivesStandalone : Texture
  depthTexVolumesStandalone : Texture
  depthMergeUTexSize : Nat × Nat
  copyFboTargetUTexSize : Nat × Nat
  copyFboPostprocessingUTexSize : Nat × Nat
  wboit : Option WboitPass
  postprocessingTarget : RenderTarget
  fxaaTarget : RenderTarget
deriving DecidableEq, Repr

/-- Accessor `this.depthTexturePrimitives`: the packed-depth target's texture when the
separate target exists, the standalone depth texture otherwise (line 119). -/
def DrawPass.depthTexturePrimitives (p : DrawPass) : Texture :=
  match p.depthTargetPrimitives with
  | some rt => rt.texture
  | none => p.depthTexPrimitivesStandalone

/-- Accessor `this.depthTextureVolumes` (line 120). -/
def DrawPass.depthTextureVolumes (p : DrawPass) : Texture :=
  match p.depthTargetVolumes with
  | some rt => rt.texture
  | none => p.depthTexVolumesStandalone

/-- Getter `get wboitEnabled() { return !!this.wboit?.enabled; }` (lines 101-103). -/
def DrawPass.wboitEnabled (p : DrawPass) : Bool :=
  match p.wboit with
  | some w => w.enabled
  | none => false

/-- The `DrawPass` constructor (lines 105-133): `packedDepth` is the absence
of native depth-texture support; the two separate depth render targets exist
exactly when `packedDepth`; otherwise the standalone depth textures are
defined at (width, height); all uniform size cells start at (width, height);
the WBOIT pass is constructed only when requested. -/
def DrawPass.create (caps : Capabilities) (width height : Nat)
    (enableWboit : Bool) : DrawPass :=
  let packedDepth := !caps.depthTexture
  { packedDepth := packedDepth
    colorTarget := { texture := ⟨width, height, 10⟩, id := 0 }
    depthTarget := { texture := ⟨width, height, 11⟩, id := 1 }
    depthTargetPrimitives :=
      if packedDepth then some { texture := ⟨width, height, 12⟩, id := 2 } else none
    depthTargetVolumes :=
      if packedDepth then some { texture := ⟨width, height, 13⟩, id := 3 } else none
    depthTexPrimitivesStandalone := ⟨width, height, 14⟩
    depthTexVolumesStandalone := ⟨width, height, 15⟩
    depthMergeUTexSize := (width, height)
    copyFboTargetUTexSize := (width, height)
    copyFboPostprocessingUTexSize := (width, height)
    wboit :=
      if enableWboit then
        some { enabled := caps.wboitFeatures && caps.depthTexture
               size := (width, height) }
      else none
    postprocessingTarget := { texture := ⟨width, height, 16⟩, id := 4 }
    fxaaTarget := { texture := ⟨width, height, 17⟩, id := 5 } }

/-- Method `setSize(width, height)` (lines 135-167): no-op when the requested size
equals the color target's current size; otherwise resizes the color and
canonical depth targets, resizes the separate depth targets when present or
redefines the standalone depth textures otherwise, updates the three uniform
size cells, resizes the WBOIT pass only when it is enabled, and resizes the
post-processing and antialiasing stages. -/
def DrawPass.setSize (p : DrawPass) (width height : Nat) : DrawPass :=
  let w := p.colorTarget.getWidth
  let h := p.colorTarget.getHeight
  if width ≠ w ∨ height ≠ h then
    { p with
      colorTarget := p.colorTarget.setSize width height
      depthTarget := p.depthTarget.setSize width height
      depthTargetPrimitives :=
        p.depthTargetPrimitives.map (fun rt => rt.setSize width height)
      depthTexPrimitivesStandalone :=
        match p.depthTargetPrimitives with
        | some _ => p.depthTexPrimitivesStandalone
        | none => p.depthTexPrimitivesStandalone.define width height
      depthTargetVolumes :=
        p.depthTargetVolumes.map (fun rt => rt.setSize width height)
      depthTexVolumesStandalone :=
        match p.depthTargetVolumes with
        | some _ => p.depthTexVolumesStandalone
        | none => p.depthTexVolumesStandalone.define width height
      depthMergeUTexSize := (width, height)
      copyFboTargetUTexSize := (width, height)
      copyFboPostprocessingUTexSize := (width, height)
      wboit :=
        p.wboit.map (fun wb =>
          if wb.enabled then { wb with size := (width, height) } else wb)
      postprocessingTarget := p.postprocessingTarget.setSize width height
      fxaaTarget := p.fxaaTarget.setSize width height }
  else p

/-- Method `getColorTarget(postprocessingProps)` (lines 335-342). -/
def DrawPass.getColorTarget (p : DrawPass) (props : PostprocessingProps) :
    RenderTarget :=
  if FxaaPass.isEnabled props then p.fxaaTarget
  else if PostprocessingPass.isEnabled props then p.postprocessingTarget
  else p.colorTarget

/-- Every resource owned by the orchestrator reports dimensions (w, h):
color target, canonical depth target, primitive/volume depth resources
(separate targets when present, the depth textures in either representation),
the three uniform size cells, the WBOIT buffers when WBOIT is enabled, and
the post-processing and antialiasing targets. -/
def DrawPass.Sized (p : DrawPass) (w h : Nat) : Bool :=
  (p.colorTarget.getWidth == w) && (p.colorTarget.getHeight == h) &&
  (p.depthTarget.getWidth == w) && (p.depthTarget.getHeight == h) &&
  (match p.depthTargetPrimitives with
   | some rt => (rt.getWidth == w) && (rt.getHeight == h)
   | none => true) &&
  (match p.depthTargetVolumes with
   | some rt => (rt.getWidth == w) && (rt.getHeight == h)
   | none => true) &&
  (p.depthTexturePrimitives.width == w) &&
  (p.depthTexturePrimitives.height == h) &&
  (p.depthTextureVolumes.width == w) && (p.depthTextureVolumes.height == h) &&
  (p.depthMergeUTexSize == (w, h)) &&
  (p.copyFboTargetUTexSize == (w, h)) &&
  (p.copyFboPostprocessingUTexSize == (w, h)) &&
  (match p.wboit with
   | some wb => !wb.enabled || (wb.size == (w, h))
   | none => true) &&
  (p.postprocessingTarget.getWidth == w) &&
  (p.postprocessingTarget.getHeight == h) &&
  (p.fxaaTarget.getWidth == w) && (p.fxaaTarget.getHeight == h)

/-! ### Trace semantics of the render methods -/

/-- The bindable framebuffer targets of the pipeline. -/
inductive BindTarget where
  | color
  | depth
  | depthPrims
  | depthVols
  | postprocessingT
  | draw
  | wboitBuffers
deriving DecidableEq, Repr

/-- The two depth textures that can be attached to a framebuffer. -/
inductive DepthTex where
  | prims
  | vols
deriving DecidableEq, Repr

/-- The framebuffers a depth texture gets attached to. -/
inductive Framebuffer where
  | colorFb
  | postprocessingFb
deriving DecidableEq, Repr

/-- The two scene partitions (§3). -/
inductive ScenePart where
  | primitives
  | volumes
deriving DecidableEq, Repr

/-- The three helper overlays (§6). -/
inductive HelperKind where
  | debug
  | handle
  | cameraHelper
deriving DecidableEq, Repr

/-- An externally visible GPU / renderer call issued by the draw pass, in
program order. -/
inductive Event where
  | setTransparentBackground
  | setDrawingBufferSize
  | setViewport
  | updateCamera
  | bind (t : BindTarget)
  | unbindFramebuffer
  | attach (tex : DepthTex) (fb : Framebuffer)
  | clear (color : Bool)
  | clearDepth
  | renderBlendedOpaque (part : ScenePart)
  | renderBlendedTransparent (part : ScenePart)
  | renderBlendedVolume
  | renderDepth (part : ScenePart)
  | renderWboitOpaque (part : ScenePart)
  | renderWboitTransparent (part : ScenePart)
  | depthMergeRender
  | postprocessingRender
  | wboitRender
  | renderHelper (kind : HelperKind)
  | fxaaRender (toDrawingBuffer : Bool)
  | copyFbo (fromPostprocessing : Bool)
  | flush
deriving DecidableEq, Repr

/-- Method `_depthMerge()` (lines 169-181): bind the canonical depth target and run
the depth-merge full-screen pass. -/
def DrawPass.depthMergeTrace : List Event :=
  [.bind .depth, .depthMergeRender]

/-- Method `_renderWboit(...)` (lines 183-222): fails with the defensive error when
the WBOIT pass is absent or disabled; otherwise issues the WBOIT
choreography: clear color target, opaque primitives and volumes with their
depth textures attached in turn, depth merge, optional post-processing,
transparent accumulation into the WBOIT buffers, and the final resolve with
the primitive depth texture reattached to the currently active target. -/
def DrawPass.renderWboitTrace (p : DrawPass)
    (props : PostprocessingProps) : Except String (List Event) :=
  if !p.wboitEnabled then .error "expected wboit to be enabled"
  else .ok (
    [.bind .color, .clear true,
     .attach .prims .colorFb, .bind .color, .clearDepth,
     .renderWboitOpaque .primitives,
     .attach .vols .colorFb, .bind .color, .clearDepth,
     .renderWboitOpaque .volumes]
    ++ DrawPass.depthMergeTrace
    ++ (if PostprocessingPass.isEnabled props then [.postprocessingRender]
        else [])
    ++ [.bind .wboitBuffers,
        .renderWboitTransparent .primitives,
        .renderWboitTransparent .volumes]
    ++ (if PostprocessingPass.isEnabled props then
          [.attach .prims .postprocessingFb, .bind .postprocessingT]
        else [.attach .prims .colorFb, .bind .color])
    ++ [.wboitRender])

/-- Method `_renderBlended(...)` (lines 224-274): bind the drawing buffer or the
color target (attaching the primitive depth texture when native depth
textures exist), clear and render opaque primitives, do the packed-depth
primitive depth pass, render volumes (with the packed-depth volume depth
pass), render transparent primitives, and merge depths when not rendering
straight to the drawing buffer. -/
def DrawPass.renderBlendedTrace (p : DrawPass)
    (toDrawingBuffer : Bool) : List Event :=
  (if toDrawingBuffer then [.unbindFramebuffer]
   else [.bind .color]
     ++ (if !p.packedDepth then [.attach .prims .colorFb] else []))
  ++ [.clear true, .renderBlendedOpaque .primitives]
  ++ (if !toDrawingBuffer && p.depthTargetPrimitives.isSome then
        [.bind .depthPrims, .clear false, .renderDepth .primitives,
         .bind .color]
      else [])
  ++ (if !toDrawingBuffer then
        (if !p.packedDepth then [.attach .vols .colorFb, .clearDepth] else [])
        ++ [.renderBlendedVolume]
        ++ (if p.depthTargetVolumes.isSome then
              [.bind .depthVols, .clear false, .renderDepth .volumes,
               .bind .color]
            else [])
        ++ (if !p.packedDepth then [.attach .prims .colorFb] else [])
      else [])
  ++ [.renderBlendedTransparent .primitives]
  ++ (if !toDrawingBuffer then DrawPass.depthMergeTrace ++ [.bind .color]
      else [])

/-- Method `_render(...)` (lines 276-321): viewport and camera update, dispatch to
the WBOIT or blended strategy (the blended strategy receives
`!antialiasingEnabled && toDrawingBuffer`), bind the post-processing or
color target, render the enabled helper overlays, then antialias or copy to
the drawing buffer, and flush. -/
def DrawPass.renderViewTrace (p : DrawPass) (helper : Helper)
    (toDrawingBuffer : Bool) (props : PostprocessingProps) :
    Except String (List Event) :=
  let antialiasingEnabled := FxaaPass.isEnabled props
  let strategy : Except String (List Event) :=
    if p.wboitEnabled then p.renderWboitTrace props
    else .ok (p.renderBlendedTrace (!antialiasingEnabled && toDrawingBuffer))
  match strategy with
  | .error e => .error e
  | .ok main => .ok (
      [.setViewport, .updateCamera]
      ++ main
      ++ [if PostprocessingPass.isEnabled props then .bind .postprocessingT
          else .bind .color]
      ++ (if helper.debugEnabled then [.renderHelper .debug] else [])
      ++ (if helper.handleEnabled then [.renderHelper .handle] else [])
      ++ (if helper.cameraEnabled then [.renderHelper .cameraHelper] else [])
      ++ (if antialiasingEnabled then [.fxaaRender toDrawingBuffer]
          else if toDrawingBuffer then
            [.bind .draw, .copyFbo (PostprocessingPass.isEnabled props)]
          else [])
      ++ [.flush])

/-- Method `render(...)` (lines 323-333): set the transparent-background flag and
the drawing-buffer size, then run the per-view sequence once (mono) or twice
(stereo, left then right) into the shared targets. -/
def DrawPass.renderTrace (p : DrawPass) (stereo : Bool) (helper : Helper)
    (toDrawingBuffer : Bool) (props : PostprocessingProps) :
    Except String (List Event) :=
  let pre : List Event := [.setTransparentBackground, .setDrawingBufferSize]
  if stereo then
    match p.renderViewTrace helper toDrawingBuffer props with
    | .error e => .error e
    | .ok leftT =>
      match p.renderViewTrace helper toDrawingBuffer props with
      | .error e => .error e
      | .ok rightT => .ok (pre ++ leftT ++ rightT)
  else
    match p.renderViewTrace helper toDrawingBuffer props with
    | .error e => .error e
    | .ok t => .ok (pre ++ t)

/-- The events of a successful run; an error produces no trace. -/
def okEvents : Except String (List Event) → List Event
  | .ok t => t
  | .error _ => []

/-- Does the event belong to the WBOIT strategy (accumulation-buffer bind,
WBOIT-specific draw calls, or the WBOIT resolve pass)? -/
def Event.isWboitEvent : Event → Bool
  | .bind .wboitBuffers => true
  | .renderWboitOpaque _ => true
  | .renderWboitTransparent _ => true
  | .wboitRender => true
  | _ => false

/-- Is the event a direct attachment of a depth texture to a framebuffer? -/
def Event.isAttach : Event → Bool
  | .attach _ _ => true
  | _ => false

/-! ### The outline post-process shader (`src/mol-gl/shader/outlines.frag.ts`)

Shader floats are modelled as rationals; a depth image is a function from
integer pixel coordinates to a depth value (the shader samples the 3×3
window around the fragment via `coords + vec2(x, y) * invTexSize`). -/

/-- Shader uniforms and the static orthographic/perspective define. -/
structure Uniforms where
  near : ℚ
  far : ℚ
  maxPossibleViewZDiff : ℚ
  orthographic : Bool

/-- Shader function `perspectiveDepthToViewZ` (lines 16-18). -/
def perspectiveDepthToViewZ (invClipZ near far : ℚ) : ℚ :=
  (near * far) / ((far - near) * invClipZ - far)

/-- Shader function `orthographicDepthToViewZ` (lines 20-22). -/
def orthographicDepthToViewZ (linearClipZ near far : ℚ) : ℚ :=
  linearClipZ * (near - far) - near

/-- Shader function `getViewZ` (lines 24-30): selected by the static `dOrthographic` flag. -/
def getViewZ (u : Uniforms) (depth : ℚ) : ℚ :=
  if u.orthographic then orthographicDepthToViewZ depth u.near u.far
  else perspectiveDepthToViewZ depth u.near u.far

/-- Shader function `isBackground` (lines 36-38): `depth >= 0.99`. -/
def isBackground (depth : ℚ) : Bool :=
  decide (depth ≥ 0.99)

/-- Shader value `backgroundViewZ = uFar + 3.0 * uMaxPossibleViewZDiff` (line 41). -/
def backgroundViewZ (u : Uniforms) : ℚ :=
  u.far + 3 * u.maxPossibleViewZDiff

/-- The view-space Z assigned to a depth sample, both for the center pixel
(line 47) and for a neighbor sample (line 56): the synthetic background
view-Z when the sample is background, the reconstructed view-Z otherwise. -/
def sampleViewZ (u : Uniforms) (depth : ℚ) : ℚ :=
  if isBackground depth then backgroundViewZ u else getViewZ u depth

/-- One iteration of the 3×3 loop body (lines 58-61): mark the pixel as
outline and record the sample depth when the view-Z difference exceeds the
threshold, the center is farther than the sample, and the sample is the
best (nearest) occluder so far. -/
def outlineStep (u : Uniforms) (selfDepth selfViewZ : ℚ) (acc : ℚ × ℚ)
    (sampleDepth : ℚ) : ℚ × ℚ :=
  if |selfViewZ - sampleViewZ u sampleDepth| > u.maxPossibleViewZDiff ∧
      selfDepth > sampleDepth ∧ sampleDepth ≤ acc.2 then
    (0, sampleDepth)
  else acc

/-- The 3×3 window offsets in loop order (outer `y`, inner `x`, lines
52-53), as (x, y) pairs. -/
def offsets : List (ℤ × ℤ) :=
  [(-1, -1), (0, -1), (1, -1), (-1, 0), (0, 0), (1, 0), (-1, 1), (0, 1),
   (1, 1)]

/-- Shader entry `main` (lines 40-66): the (outline, bestDepth) pair computed for the
pixel at (px, py); the fragment writes `vec4(outline,
packUnitIntervalToRG(bestDepth), 0.0)`. -/
def outlineMain (u : Uniforms) (img : ℤ → ℤ → ℚ) (px py : ℤ) : ℚ × ℚ :=
  let selfDepth := img px py
  let selfViewZ := sampleViewZ u selfDepth
  offsets.foldl
    (fun acc o => outlineStep u selfDepth selfViewZ acc (img (px + o.1) (py + o.2)))
    (1, 1)

/-! ### Helper lemmas -/

/-- A loop iteration whose sample depth equals the center depth never fires
(the strict `selfDepth > sampleDepth` test fails). -/
theorem outlineStep_self (u : Uniforms) (d z : ℚ) (acc : ℚ × ℚ) :
    outlineStep u d z acc d = acc := by
  unfold outlineStep
  rw [if_neg]
  rintro ⟨-, h2, -⟩
  exact lt_irrefl d h2

/-- A background sample is assigned the synthetic background view-Z. -/
theorem sampleViewZ_background (u : Uniforms) (d : ℚ) (hd : 0.99 ≤ d) :
    sampleViewZ u d = backgroundViewZ u := by
  unfold sampleViewZ
  rw [if_pos]
  simpa [isBackground] using hd

/-- A foreground sample is assigned the reconstructed view-Z. -/
theorem sampleViewZ_foreground (u : Uniforms) (d : ℚ) (hd : d < 0.99) :
    sampleViewZ u d = getViewZ u d := by
  unfold sampleViewZ
  rw [if_neg]
  simp only [isBackground, decide_eq_true_eq, not_le, ge_iff_le]
  exact hd

/-- A background center against a strictly nearer foreground sample fires
the outline test when the view-Z gap exceeds the threshold and the sample
beats the current best occluder depth. -/
theorem outlineStep_hit (u : Uniforms) (dF dB b : ℚ)
    (h1 : |backgroundViewZ u - getViewZ u dF| > u.maxPossibleViewZDiff)
    (h2 : dF < dB) (h3 : dF < 0.99) (h4 : dF ≤ b) :
    outlineStep u dB (backgroundViewZ u) (1, b) dF = (0, dF) := by
  unfold outlineStep
  rw [sampleViewZ_foreground u dF h3, if_pos]
  exact ⟨h1, h2, h4⟩

/-! ### Claim theorems -/

/-- C1: for every post-processing configuration, `getColorTarget` returns
the antialiasing (fxaa) target when antialiasing is enabled regardless of
the post-processing state, the post-processing target when antialiasing is
disabled and post-processing is enabled, and the plain color target
otherwise. -/
theorem getColorTarget_selects_final_output (p : DrawPass)
    (props : PostprocessingProps) :
    (FxaaPass.isEnabled props = true →
      p.getColorTarget props = p.fxaaTarget) ∧
    (FxaaPass.isEnabled props = false →
      PostprocessingPass.isEnabled props = true →
      p.getColorTarget props = p.postprocessingTarget) ∧
    (FxaaPass.isEnabled props = false →
      PostprocessingPass.isEnabled props = false →
      p.getColorTarget props = p.colorTarget) := by
  rcases props with ⟨occ, outl, aa⟩
  cases aa <;> cases occ <;> cases outl <;>
    simp [DrawPass.getColorTarget, FxaaPass.isEnabled,
      PostprocessingPass.isEnabled]

/-- Witness for C1 at concrete configurations of an 800×600 orchestrator. -/
theorem getColorTarget_selects_final_output_witness :
    (DrawPass.create ⟨true, true⟩ 800 600 true).getColorTarget
        ⟨true, false, true⟩
      = (DrawPass.create ⟨true, true⟩ 800 600 true).fxaaTarget ∧
    (DrawPass.create ⟨true, true⟩ 800 600 true).getColorTarget
        ⟨true, false, false⟩
      = (DrawPass.create ⟨true, true⟩ 800 600 true).postprocessingTarget ∧
    (DrawPass.create ⟨true, true⟩ 800 600 true).getColorTarget
        ⟨false, false, false⟩
      = (DrawPass.create ⟨true, true⟩ 800 600 true).colorTarget :=
  ⟨(getColorTarget_selects_final_output _ ⟨true, false, true⟩).1 rfl,
   (getColorTarget_selects_final_output _ ⟨true, false, false⟩).2.1 rfl rfl,
   (getColorTarget_selects_final_output _ ⟨false, false, false⟩).2.2 rfl rfl⟩

/-- C2: starting from a well-sized orchestrator state, after
`setSize(width, height)` every owned render target, texture, uniform size
cell, enabled-WBOIT buffer, and the post-processing and antialiasing targets
report (width, height); and `setSize` at the current dimensions returns the
state unchanged (no resize, no reallocation, object identity preserved). -/
theorem setSize_resizes_all_and_noop (p : DrawPass) (w h : Nat)
    (hp : p.Sized p.colorTarget.getWidth p.colorTarget.getHeight = true) :
    (p.setSize w h).Sized w h = true ∧
    p.setSize p.colorTarget.getWidth p.colorTarget.getHeight = p := by
  constructor
  · unfold DrawPass.setSize
    by_cases hg : w ≠ p.colorTarget.getWidth ∨ h ≠ p.colorTarget.getHeight
    · rw [if_pos hg]
      rcases p with ⟨pd, ct, dt, dtp, dtv, s1, s2, u1, u2, u3, wb, pp, fx⟩
      unfold DrawPass.Sized DrawPass.depthTexturePrimitives
        DrawPass.depthTextureVolumes
      cases dtp <;> cases dtv <;> cases wb <;>
        simp [RenderTarget.setSize, RenderTarget.getWidth,
          RenderTarget.getHeight, Texture.define]
      all_goals
        rename_i wb'
        cases hwb : wb'.enabled <;> simp [hwb]
    · rw [if_neg hg]
      push_neg at hg
      rw [hg.1, hg.2]
      exact hp
  · unfold DrawPass.setSize
    simp

/-- Witness for C2: an 800×600 WBOIT-enabled orchestrator resized to
1024×768 reports 1024×768 everywhere, and `setSize(800, 600)` is the
identity on it. -/
theorem setSize_resizes_all_and_noop_witness :
    ((DrawPass.create ⟨true, true⟩ 800 600 true).setSize 1024 768).Sized
        1024 768 = true ∧
    (DrawPass.create ⟨true, true⟩ 800 600 true).setSize 800 600
      = DrawPass.create ⟨true, true⟩ 800 600 true := by
  have h := setSize_resizes_all_and_noop
    (DrawPass.create ⟨true, true⟩ 800 600 true) 1024 768 (by decide)
  exact ⟨h.1, h.2⟩

/-- C4 (counterexample to the claimed message): invoking the WBOIT strategy
on an orchestrator constructed without WBOIT raises the error message
`expected wboit to be enabled` (lower case), not the claimed
`expected WBOIT to be enabled`. -/
theorem renderWboit_error_message_counterexample :
    (DrawPass.create ⟨true, false⟩ 800 600 false).renderWboitTrace
        ⟨false, false, false⟩
      = .error "expected wboit to be enabled" ∧
    "expected wboit to be enabled" ≠ "expected WBOIT to be enabled" :=
  ⟨rfl, by decide⟩

/-- C4 (amended): `_renderWboit` raises the unrecoverable error
`expected wboit to be enabled` exactly when the WBOIT pass is absent or
disabled, and in that case it issues no rendering call at all; when WBOIT is
active no error is raised. -/
theorem renderWboit_error_iff_not_enabled (p : DrawPass)
    (props : PostprocessingProps) :
    (p.wboitEnabled = false →
      p.renderWboitTrace props = .error "expected wboit to be enabled" ∧
      okEvents (p.renderWboitTrace props) = []) ∧
    (p.wboitEnabled = true → ∃ t, p.renderWboitTrace props = .ok t) := by
  constructor
  · intro hw
    unfold DrawPass.renderWboitTrace
    rw [hw]
    exact ⟨rfl, rfl⟩
  · intro hw
    unfold DrawPass.renderWboitTrace
    rw [hw]
    exact ⟨_, rfl⟩

/-- Witness for C4 (amended): a WBOIT-less orchestrator raises the error
with no events, and a WBOIT-enabled one renders without error. -/
theorem renderWboit_error_iff_not_enabled_witness :
    ((DrawPass.create ⟨true, true⟩ 800 600 false).renderWboitTrace
        ⟨false, false, false⟩
      = .error "expected wboit to be enabled" ∧
     okEvents ((DrawPass.create ⟨true, true⟩ 800 600 false).renderWboitTrace
        ⟨false, false, false⟩) = []) ∧
    ∃ t, (DrawPass.create ⟨true, true⟩ 800 600 true).renderWboitTrace
        ⟨false, false, false⟩ = .ok t :=
  ⟨(renderWboit_error_iff_not_enabled
      (DrawPass.create ⟨true, true⟩ 800 600 false) ⟨false, false, false⟩).1
      rfl,
   (renderWboit_error_iff_not_enabled
      (DrawPass.create ⟨true, true⟩ 800 600 true) ⟨false, false, false⟩).2
      rfl⟩

/-- C7: every depth sample with normalized device depth ≥ 0.99 is classified
as background and assigned the synthetic view-space Z
`far + 3 * maxPossibleViewZDiff`; `outlineMain` applies `sampleViewZ` both
to the center pixel and to every neighbor sample. -/
theorem background_pixels_get_synthetic_viewZ (u : Uniforms) (d : ℚ)
    (hd : d ≥ 0.99) :
    isBackground d = true ∧
    sampleViewZ u d = u.far + 3 * u.maxPossibleViewZDiff := by
  refine ⟨?_, ?_⟩
  · simpa [isBackground] using hd
  · rw [sampleViewZ_background u d hd]
    rfl

/-- Witness for C7 at depth 0.995 with near 1, far 100, threshold 1/2. -/
theorem background_pixels_get_synthetic_viewZ_witness :
    isBackground 0.995 = true ∧
    sampleViewZ ⟨1, 100, 1/2, true⟩ 0.995 = 100 + 3 * (1/2) := by
  have h := background_pixels_get_synthetic_viewZ ⟨1, 100, 1/2, true⟩ 0.995
    (by norm_num)
  exact ⟨h.1, h.2⟩

/-- The per-view sequence on a non-WBOIT orchestrator: the strategy dispatch
takes the blended branch with `!antialiasingEnabled && toDrawingBuffer`. -/
theorem renderViewTrace_eq_of_not_wboit (p : DrawPass) (helper : Helper)
    (toDrawingBuffer : Bool) (props : PostprocessingProps)
    (hw : p.wboitEnabled = false) :
    p.renderViewTrace helper toDrawingBuffer props = .ok (
      [.setViewport, .updateCamera]
      ++ p.renderBlendedTrace (!(FxaaPass.isEnabled props) && toDrawingBuffer)
      ++ [if PostprocessingPass.isEnabled props then .bind .postprocessingT
          else .bind .color]
      ++ (if helper.debugEnabled then [.renderHelper .debug] else [])
      ++ (if helper.handleEnabled then [.renderHelper .handle] else [])
      ++ (if helper.cameraEnabled then [.renderHelper .cameraHelper] else [])
      ++ (if FxaaPass.isEnabled props then [.fxaaRender toDrawingBuffer]
          else if toDrawingBuffer then
            [.bind .draw, .copyFbo (PostprocessingPass.isEnabled props)]
          else [])
      ++ [.flush]) := by
  unfold DrawPass.renderViewTrace
  rw [hw]
  simp

/-- No event of the blended strategy belongs to the WBOIT strategy. -/
theorem renderBlendedTrace_all_not_wboit (p : DrawPass) (tdb : Bool) :
    (p.renderBlendedTrace tdb).all (fun e => !e.isWboitEvent) = true := by
  unfold DrawPass.renderBlendedTrace DrawPass.depthMergeTrace
  cases tdb <;> cases hpd : p.packedDepth <;>
    cases hs : p.depthTargetPrimitives <;>
    cases hv : p.depthTargetVolumes <;> rfl

/-- The blended strategy never attaches a depth texture when `packedDepth`
holds. -/
theorem renderBlendedTrace_all_not_attach (p : DrawPass) (tdb : Bool)
    (hpd : p.packedDepth = true) :
    (p.renderBlendedTrace tdb).all (fun e => !e.isAttach) = true := by
  unfold DrawPass.renderBlendedTrace DrawPass.depthMergeTrace
  rw [hpd]
  cases tdb <;> cases hs : p.depthTargetPrimitives <;>
    cases hv : p.depthTargetVolumes <;> rfl

/-- Offscreen blended rendering with the separate primitive depth target
runs the dedicated primitive depth-only pass. -/
theorem renderBlendedTrace_mem_renderDepth_primitives (p : DrawPass)
    (hs : p.depthTargetPrimitives.isSome = true) :
    Event.renderDepth .primitives ∈ p.renderBlendedTrace false := by
  unfold DrawPass.renderBlendedTrace DrawPass.depthMergeTrace
  rw [hs]
  cases hpd : p.packedDepth <;> cases hv : p.depthTargetVolumes <;>
    simp

/-- Offscreen blended rendering with the separate volume depth target runs
the dedicated volume depth-only pass. -/
theorem renderBlendedTrace_mem_renderDepth_volumes (p : DrawPass)
    (hv : p.depthTargetVolumes.isSome = true) :
    Event.renderDepth .volumes ∈ p.renderBlendedTrace false := by
  unfold DrawPass.renderBlendedTrace DrawPass.depthMergeTrace
  cases hvv : p.depthTargetVolumes
  · rw [hvv] at hv
    cases hv
  · cases hpd : p.packedDepth <;> cases hs : p.depthTargetPrimitives <;>
      simp

/-- Offscreen blended rendering never unbinds to the drawing buffer. -/
theorem renderBlendedTrace_no_unbind (p : DrawPass) :
    Event.unbindFramebuffer ∉ p.renderBlendedTrace false := by
  unfold DrawPass.renderBlendedTrace DrawPass.depthMergeTrace
  cases hpd : p.packedDepth <;> cases hs : p.depthTargetPrimitives <;>
    cases hv : p.depthTargetVolumes <;>
    simp

/-- The blended strategy runs the depth merge exactly when not rendering
straight to the drawing buffer. -/
theorem renderBlendedTrace_mem_depthMerge_iff (p : DrawPass) (tdb : Bool) :
    Event.depthMergeRender ∈ p.renderBlendedTrace tdb ↔ tdb = false := by
  unfold DrawPass.renderBlendedTrace DrawPass.depthMergeTrace
  cases tdb <;> cases hpd : p.packedDepth <;>
    cases hs : p.depthTargetPrimitives <;>
    cases hv : p.depthTargetVolumes <;>
    simp

/-- Offscreen blended rendering binds the offscreen color target. -/
theorem renderBlendedTrace_mem_bind_color (p : DrawPass) :
    Event.bind .color ∈ p.renderBlendedTrace false := by
  unfold DrawPass.renderBlendedTrace DrawPass.depthMergeTrace
  cases hpd : p.packedDepth <;> cases hs : p.depthTargetPrimitives <;>
    cases hv : p.depthTargetVolumes <;> simp

theorem isInfix_append_right {α : Type} {l m : List α} (r : List α)
    (h : List.IsInfix l m) : List.IsInfix l (m ++ r) := by
  obtain ⟨s, t, rfl⟩ := h
  exact ⟨s, t ++ r, by simp⟩

theorem isInfix_append_left {α : Type} {l m : List α} (pre : List α)
    (h : List.IsInfix l m) : List.IsInfix l (pre ++ m) := by
  obtain ⟨s, t, rfl⟩ := h
  exact ⟨pre ++ s, t, by simp⟩

theorem isInfix_append_self {α : Type} (pre l : List α) :
    List.IsInfix l (pre ++ l) :=
  ⟨pre, [], by simp⟩

/-- The blended trace (at the dispatched `toDrawingBuffer` argument) is a
contiguous segment of the per-view trace. -/
theorem renderBlendedTrace_isInfix_view (p : DrawPass) (helper : Helper)
    (tdb : Bool) (props : PostprocessingProps)
    (hw : p.wboitEnabled = false) :
    List.IsInfix (p.renderBlendedTrace (!(FxaaPass.isEnabled props) && tdb))
      (okEvents (p.renderViewTrace helper tdb props)) := by
  rw [renderViewTrace_eq_of_not_wboit p helper tdb props hw]
  simp only [okEvents]
  exact isInfix_append_right _ (isInfix_append_right _ (isInfix_append_right _
    (isInfix_append_right _ (isInfix_append_right _ (isInfix_append_right _
      (isInfix_append_self _ _))))))

/-- The full-frame trace on a non-WBOIT orchestrator: frame preamble, then
the per-view sequence once (mono) or twice (stereo). -/
theorem renderTrace_eq_of_not_wboit (p : DrawPass) (stereo : Bool)
    (helper : Helper) (tdb : Bool) (props : PostprocessingProps)
    (hw : p.wboitEnabled = false) :
    p.renderTrace stereo helper tdb props = .ok (
      [.setTransparentBackground, .setDrawingBufferSize]
      ++ okEvents (p.renderViewTrace helper tdb props)
      ++ (if stereo then okEvents (p.renderViewTrace helper tdb props)
          else [])) := by
  unfold DrawPass.renderTrace
  rw [renderViewTrace_eq_of_not_wboit p helper tdb props hw]
  cases stereo <;> simp [okEvents]

/-- No event of the per-view trace on a non-WBOIT orchestrator belongs to
the WBOIT strategy. -/
theorem renderViewTrace_all_not_wboit (p : DrawPass) (helper : Helper)
    (tdb : Bool) (props : PostprocessingProps)
    (hw : p.wboitEnabled = false) :
    (okEvents (p.renderViewTrace helper tdb props)).all
      (fun e => !e.isWboitEvent) = true := by
  rw [renderViewTrace_eq_of_not_wboit p helper tdb props hw]
  simp only [okEvents, List.all_append, Bool.and_eq_true]
  refine ⟨⟨⟨⟨⟨⟨⟨rfl, renderBlendedTrace_all_not_wboit p _⟩, ?_⟩, ?_⟩,
    ?_⟩, ?_⟩, ?_⟩, rfl⟩ <;>
    (split <;> first | rfl | (split <;> rfl))

/-- On a packed-depth non-WBOIT orchestrator the per-view trace never
attaches a depth texture to a framebuffer. -/
theorem renderViewTrace_all_not_attach (p : DrawPass) (helper : Helper)
    (tdb : Bool) (props : PostprocessingProps)
    (hw : p.wboitEnabled = false) (hpd : p.packedDepth = true) :
    (okEvents (p.renderViewTrace helper tdb props)).all
      (fun e => !e.isAttach) = true := by
  rw [renderViewTrace_eq_of_not_wboit p helper tdb props hw]
  simp only [okEvents, List.all_append, Bool.and_eq_true]
  refine ⟨⟨⟨⟨⟨⟨⟨rfl, renderBlendedTrace_all_not_attach p _ hpd⟩, ?_⟩, ?_⟩,
    ?_⟩, ?_⟩, ?_⟩, rfl⟩ <;>
    (split <;> first | rfl | (split <;> rfl))

/-- C3: on an orchestrator with `wboitEnabled == false`, every frame (mono
or stereo, any helper configuration, any post-processing configuration,
either destination) renders without error, its trace contains no WBOIT
event (accumulation-buffer bind, WBOIT draw call, or WBOIT resolve), and
the blended strategy's full sequence executes as a contiguous segment. -/
theorem render_only_blended_when_wboit_disabled (p : DrawPass)
    (stereo : Bool) (helper : Helper) (tdb : Bool)
    (props : PostprocessingProps) (hw : p.wboitEnabled = false) :
    ∃ t, p.renderTrace stereo helper tdb props = .ok t ∧
      t.all (fun e => !e.isWboitEvent) = true ∧
      List.IsInfix (p.renderBlendedTrace (!(FxaaPass.isEnabled props) && tdb))
        t := by
  refine ⟨_, renderTrace_eq_of_not_wboit p stereo helper tdb props hw, ?_, ?_⟩
  · simp only [List.all_append, Bool.and_eq_true]
    refine ⟨⟨rfl, renderViewTrace_all_not_wboit p helper tdb props hw⟩, ?_⟩
    cases stereo
    · rfl
    · exact renderViewTrace_all_not_wboit p helper tdb props hw
  · exact isInfix_append_right _ (isInfix_append_left _
      (renderBlendedTrace_isInfix_view p helper tdb props hw))

/-- Witness for C3: a frame on a WBOIT-less 800×600 orchestrator. -/
theorem render_only_blended_when_wboit_disabled_witness :
    ∃ t, DrawPass.renderTrace (DrawPass.create ⟨true, true⟩ 800 600 false)
        false ⟨false, false, false⟩ true ⟨false, false, false⟩ = .ok t ∧
      t.all (fun e => !e.isWboitEvent) = true ∧
      List.IsInfix (DrawPass.renderBlendedTrace
        (DrawPass.create ⟨true, true⟩ 800 600 false)
        (!(FxaaPass.isEnabled ⟨false, false, false⟩) && true)) t :=
  render_only_blended_when_wboit_disabled
    (DrawPass.create ⟨true, true⟩ 800 600 false) false ⟨false, false, false⟩
    true ⟨false, false, false⟩ rfl

/-- C6: in the blended strategy the depth merge runs if and only if the
strategy is not rendering straight to the drawing buffer, and when it runs
it comes after the transparent primitives, as the bind of the canonical
depth target followed by the merge pass and the rebind of the color
target, with no earlier merge. -/
theorem blended_depthMerge_iff_offscreen (p : DrawPass) (tdb : Bool) :
    (Event.depthMergeRender ∈ p.renderBlendedTrace tdb ↔ tdb = false) ∧
    (tdb = false → ∃ A, p.renderBlendedTrace tdb
        = A ++ [Event.renderBlendedTransparent .primitives,
                Event.bind .depth, Event.depthMergeRender,
                Event.bind .color]
      ∧ Event.depthMergeRender ∉ A) := by
  constructor
  · exact renderBlendedTrace_mem_depthMerge_iff p tdb
  · rintro rfl
    refine ⟨([Event.bind .color]
        ++ (if !p.packedDepth then [Event.attach .prims .colorFb] else []))
      ++ [Event.clear true, Event.renderBlendedOpaque .primitives]
      ++ (if p.depthTargetPrimitives.isSome then
            [Event.bind .depthPrims, Event.clear false,
             Event.renderDepth .primitives, Event.bind .color]
          else [])
      ++ ((if !p.packedDepth then
             [Event.attach .vols .colorFb, Event.clearDepth]
           else [])
        ++ [Event.renderBlendedVolume]
        ++ (if p.depthTargetVolumes.isSome then
              [Event.bind .depthVols, Event.clear false,
               Event.renderDepth .volumes, Event.bind .color]
            else [])
        ++ (if !p.packedDepth then [Event.attach .prims .colorFb] else [])),
      ?_, ?_⟩
    · unfold DrawPass.renderBlendedTrace DrawPass.depthMergeTrace
      cases hpd : p.packedDepth <;> cases hs : p.depthTargetPrimitives <;>
        cases hv : p.depthTargetVolumes <;> simp
    · cases hpd : p.packedDepth <;> cases hs : p.depthTargetPrimitives <;>
        cases hv : p.depthTargetVolumes <;> simp

/-- Witness for C6 on an offscreen blended frame of a packed-depth
orchestrator. -/
theorem blended_depthMerge_iff_offscreen_witness :
    ∃ A, (DrawPass.create ⟨false, false⟩ 800 600 false).renderBlendedTrace
        false
      = A ++ [Event.renderBlendedTransparent .primitives,
              Event.bind .depth, Event.depthMergeRender, Event.bind .color]
      ∧ Event.depthMergeRender ∉ A :=
  (blended_depthMerge_iff_offscreen
    (DrawPass.create ⟨false, false⟩ 800 600 false) false).2 rfl

/-- C10: when antialiasing is enabled, the blended strategy is dispatched
with `toDrawingBuffer = false` even when the caller passed `true`: its full
offscreen sequence runs as a contiguous segment of the per-view trace, it
never unbinds to the presentation surface, binds the offscreen color
target, runs the depth merge, and (when the separate depth targets exist)
the dedicated depth passes. -/
theorem antialiasing_forces_offscreen_blended (p : DrawPass)
    (helper : Helper) (tdb : Bool) (props : PostprocessingProps)
    (hw : p.wboitEnabled = false)
    (haa : FxaaPass.isEnabled props = true) :
    ∃ t, p.renderViewTrace helper tdb props = .ok t ∧
      List.IsInfix (p.renderBlendedTrace false) t ∧
      Event.unbindFramebuffer ∉ p.renderBlendedTrace false ∧
      Event.bind .color ∈ p.renderBlendedTrace false ∧
      Event.depthMergeRender ∈ p.renderBlendedTrace false ∧
      (p.depthTargetPrimitives.isSome = true →
        Event.renderDepth .primitives ∈ p.renderBlendedTrace false) ∧
      (p.depthTargetVolumes.isSome = true →
        Event.renderDepth .volumes ∈ p.renderBlendedTrace false) := by
  have harg : (!(FxaaPass.isEnabled props) && tdb) = false := by
    simp [haa]
  have hinf := renderBlendedTrace_isInfix_view p helper tdb props hw
  rw [harg] at hinf
  refine ⟨okEvents (p.renderViewTrace helper tdb props), ?_, hinf,
    renderBlendedTrace_no_unbind p, renderBlendedTrace_mem_bind_color p,
    (renderBlendedTrace_mem_depthMerge_iff p false).2 rfl,
    fun hs => renderBlendedTrace_mem_renderDepth_primitives p hs,
    fun hv => renderBlendedTrace_mem_renderDepth_volumes p hv⟩
  rw [renderViewTrace_eq_of_not_wboit p helper tdb props hw]
  rfl

/-- Witness for C10: packed-depth orchestrator, caller passes
`toDrawingBuffer = true`, antialiasing on. -/
theorem antialiasing_forces_offscreen_blended_witness :
    ∃ t, DrawPass.renderViewTrace
        (DrawPass.create ⟨false, false⟩ 800 600 false)
        ⟨false, false, false⟩ true ⟨false, false, true⟩ = .ok t ∧
      List.IsInfix (DrawPass.renderBlendedTrace
        (DrawPass.create ⟨false, false⟩ 800 600 false) false) t ∧
      Event.unbindFramebuffer ∉ DrawPass.renderBlendedTrace
        (DrawPass.create ⟨false, false⟩ 800 600 false) false ∧
      Event.bind .color ∈ DrawPass.renderBlendedTrace
        (DrawPass.create ⟨false, false⟩ 800 600 false) false ∧
      Event.depthMergeRender ∈ DrawPass.renderBlendedTrace
        (DrawPass.create ⟨false, false⟩ 800 600 false) false ∧
      (Option.isSome (DrawPass.depthTargetPrimitives
          (DrawPass.create ⟨false, false⟩ 800 600 false)) = true →
        Event.renderDepth .primitives ∈ DrawPass.renderBlendedTrace
          (DrawPass.create ⟨false, false⟩ 800 600 false) false) ∧
      (Option.isSome (DrawPass.depthTargetVolumes
          (DrawPass.create ⟨false, false⟩ 800 600 false)) = true →
        Event.renderDepth .volumes ∈ DrawPass.renderBlendedTrace
          (DrawPass.create ⟨false, false⟩ 800 600 false) false) :=
  antialiasing_forces_offscreen_blended
    (DrawPass.create ⟨false, false⟩ 800 600 false) ⟨false, false, false⟩
    true ⟨false, false, true⟩ rfl rfl

/-- C9: in the WBOIT strategy with post-processing enabled, the
post-processing pass runs immediately after the depth merge and strictly
before the WBOIT accumulation buffers are bound and before any transparent
primitives or volumes are rendered. -/
theorem wboit_postprocessing_after_merge_before_transparency (p : DrawPass)
    (props : PostprocessingProps) (hw : p.wboitEnabled = true)
    (hpp : PostprocessingPass.isEnabled props = true) :
    ∃ t, p.renderWboitTrace props = .ok t ∧
      Event.postprocessingRender ∈ t ∧
      t.count Event.postprocessingRender = 1 ∧
      List.indexOf Event.depthMergeRender t + 1
        = List.indexOf Event.postprocessingRender t ∧
      List.indexOf Event.postprocessingRender t
        < List.indexOf (Event.bind .wboitBuffers) t ∧
      List.indexOf (Event.bind .wboitBuffers) t
        < List.indexOf (Event.renderWboitTransparent .primitives) t ∧
      List.indexOf (Event.renderWboitTransparent .primitives) t
        < List.indexOf (Event.renderWboitTransparent .volumes) t := by
  have heq : p.renderWboitTrace props = .ok
      [.bind .color, .clear true,
       .attach .prims .colorFb, .bind .color, .clearDepth,
       .renderWboitOpaque .primitives,
       .attach .vols .colorFb, .bind .color, .clearDepth,
       .renderWboitOpaque .volumes,
       .bind .depth, .depthMergeRender,
       .postprocessingRender,
       .bind .wboitBuffers, .renderWboitTransparent .primitives,
       .renderWboitTransparent .volumes,
       .attach .prims .postprocessingFb, .bind .postprocessingT,
       .wboitRender] := by
    unfold DrawPass.renderWboitTrace DrawPass.depthMergeTrace
    rw [hw, hpp]
    simp
  exact ⟨_, heq, by decide, by decide, by decide, by decide, by decide,
    by decide⟩

/-- Witness for C9 on a WBOIT-enabled orchestrator with ambient occlusion
on. -/
theorem wboit_postprocessing_after_merge_before_transparency_witness :
    ∃ t, DrawPass.renderWboitTrace
        (DrawPass.create ⟨true, true⟩ 800 600 true) ⟨true, false, false⟩
      = .ok t ∧
      Event.postprocessingRender ∈ t ∧
      t.count Event.postprocessingRender = 1 ∧
      List.indexOf Event.depthMergeRender t + 1
        = List.indexOf Event.postprocessingRender t ∧
      List.indexOf Event.postprocessingRender t
        < List.indexOf (Event.bind .wboitBuffers) t ∧
      List.indexOf (Event.bind .wboitBuffers) t
        < List.indexOf (Event.renderWboitTransparent .primitives) t ∧
      List.indexOf (Event.renderWboitTransparent .primitives) t
        < List.indexOf (Event.renderWboitTransparent .volumes) t :=
  wboit_postprocessing_after_merge_before_transparency
    (DrawPass.create ⟨true, true⟩ 800 600 true) ⟨true, false, false⟩ rfl rfl

/-- C5 (counterexample): on a packed-depth orchestrator, a frame rendered
straight to the drawing buffer (no antialiasing) captures no depth at all:
the claimed dedicated depth-only passes do not run on that frame. -/
theorem packedDepth_depth_capture_counterexample :
    (DrawPass.create ⟨false, false⟩ 800 600 false).packedDepth = true ∧
    Event.renderDepth .primitives ∉
      okEvents (DrawPass.renderTrace
        (DrawPass.create ⟨false, false⟩ 800 600 false) false
        ⟨false, false, false⟩ true ⟨false, false, false⟩) ∧
    Event.renderDepth .volumes ∉
      okEvents (DrawPass.renderTrace
        (DrawPass.create ⟨false, false⟩ 800 600 false) false
        ⟨false, false, false⟩ true ⟨false, false, false⟩) := by
  refine ⟨rfl, ?_, ?_⟩ <;> decide

/-- C5 (amended): on a packed-depth orchestrator no frame ever attaches a
depth texture directly to a framebuffer, and on every frame that does not
render straight to the drawing buffer (antialiasing enabled or
`toDrawingBuffer = false`) primitive and volume depth are captured via the
dedicated depth-only passes. -/
theorem packedDepth_depth_capture_amended (caps : Capabilities)
    (w h : Nat) (ew stereo tdb : Bool) (helper : Helper)
    (props : PostprocessingProps)
    (hp : (DrawPass.create caps w h ew).packedDepth = true) :
    ∃ t, DrawPass.renderTrace (DrawPass.create caps w h ew) stereo helper
        tdb props = .ok t ∧
      t.all (fun e => !e.isAttach) = true ∧
      ((FxaaPass.isEnabled props = true ∨ tdb = false) →
        Event.renderDepth .primitives ∈ t ∧
        Event.renderDepth .volumes ∈ t) := by
  rcases caps with ⟨dt, wf⟩
  cases dt
  case true => simp [DrawPass.create] at hp
  case false =>
  set p := DrawPass.create ⟨false, wf⟩ w h ew with hpdef
  have hw : p.wboitEnabled = false := by
    cases ew <;> simp [hpdef, DrawPass.create, DrawPass.wboitEnabled]
  have hpd : p.packedDepth = true := hp
  have hsome : p.depthTargetPrimitives.isSome = true := by
    simp [hpdef, DrawPass.create]
  have hvome : p.depthTargetVolumes.isSome = true := by
    simp [hpdef, DrawPass.create]
  refine ⟨_, renderTrace_eq_of_not_wboit p stereo helper tdb props hw,
    ?_, ?_⟩
  · simp only [List.all_append, Bool.and_eq_true]
    refine ⟨⟨rfl, renderViewTrace_all_not_attach p helper tdb props hw hpd⟩,
      ?_⟩
    cases stereo
    · rfl
    · exact renderViewTrace_all_not_attach p helper tdb props hw hpd
  · intro hcond
    have harg : (!(FxaaPass.isEnabled props) && tdb) = false := by
      rcases hcond with haa | rfl
      · simp [haa]
      · simp
    have hinf := renderBlendedTrace_isInfix_view p helper tdb props hw
    rw [harg] at hinf
    have h1 : Event.renderDepth .primitives
        ∈ okEvents (p.renderViewTrace helper tdb props) :=
      hinf.subset (renderBlendedTrace_mem_renderDepth_primitives p hsome)
    have h2 : Event.renderDepth .volumes
        ∈ okEvents (p.renderViewTrace helper tdb props) :=
      hinf.subset (renderBlendedTrace_mem_renderDepth_volumes p hvome)
    exact ⟨List.mem_append.mpr (Or.inl (List.mem_append.mpr (Or.inr h1))),
      List.mem_append.mpr (Or.inl (List.mem_append.mpr (Or.inr h2)))⟩

/-- Witness for C5 (amended): packed-depth orchestrator, offscreen frame. -/
theorem packedDepth_depth_capture_amended_witness :
    ∃ t, DrawPass.renderTrace
        (DrawPass.create ⟨false, false⟩ 800 600 false) false
        ⟨false, false, false⟩ false ⟨false, false, false⟩ = .ok t ∧
      t.all (fun e => !e.isAttach) = true ∧
      ((FxaaPass.isEnabled ⟨false, false, false⟩ = true ∨ false = false) →
        Event.renderDepth .primitives ∈ t ∧
        Event.renderDepth .volumes ∈ t) :=
  packedDepth_depth_capture_amended ⟨false, false⟩ 800 600 false false false
    ⟨false, false, false⟩ ⟨false, false, false⟩ rfl

/-- C8: the outline detector marks nothing on a uniform-depth image (every
pixel outputs outline flag 1), and with a single foreground pixel at the
origin surrounded by background (depth ≥ 0.99) whose synthetic view-Z
differs from the foreground view-Z by more than `maxPossibleViewZDiff`,
every background pixel in the 3×3 neighborhood of the foreground pixel
outputs outline flag 0. -/
theorem outline_uniform_and_single_foreground (u : Uniforms) :
    (∀ (img : ℤ → ℤ → ℚ) (c : ℚ), (∀ x y, img x y = c) →
      ∀ px py : ℤ, (outlineMain u img px py).1 = 1) ∧
    (∀ (img : ℤ → ℤ → ℚ) (dF dB : ℚ),
      img 0 0 = dF →
      (∀ x y : ℤ, ¬(x = 0 ∧ y = 0) → img x y = dB) →
      dF < 0.99 → 0.99 ≤ dB →
      |backgroundViewZ u - getViewZ u dF| > u.maxPossibleViewZDiff →
      ∀ px py : ℤ, -1 ≤ px → px ≤ 1 → -1 ≤ py → py ≤ 1 →
        ¬(px = 0 ∧ py = 0) →
        (outlineMain u img px py).1 = 0) := by
  constructor
  · intro img c hc px py
    simp [outlineMain, offsets, hc, outlineStep_self]
  · intro img dF dB h0 hB hF hBk hdiff px py hpx1 hpx2 hpy1 hpy2 hne
    have hds : dF < dB := lt_of_lt_of_le hF hBk
    have hdF1 : dF ≤ 1 := le_of_lt (lt_of_lt_of_le hF (by norm_num))
    have hsvz : sampleViewZ u dB = backgroundViewZ u :=
      sampleViewZ_background u dB hBk
    have hhit : outlineStep u dB (backgroundViewZ u) (1, 1) dF = (0, dF) :=
      outlineStep_hit u dF dB 1 hdiff hds hF hdF1
    have hhit1 : outlineStep u dB (backgroundViewZ u) 1 dF = (0, dF) := hhit
    interval_cases px <;> interval_cases py <;>
      first
        | omega
        | simp [outlineMain, offsets, h0, hB, hsvz, outlineStep_self, hhit,
            hhit1]

/-- Witness for C8: orthographic camera, near 1, far 100, threshold 1/2;
uniform image at depth 1; single foreground pixel of depth 1/2 at the
origin; the background pixel at (1, 0) is marked as outline. -/
theorem outline_uniform_and_single_foreground_witness :
    (outlineMain ⟨1, 100, 1/2, true⟩ (fun _ _ => (1 : ℚ)) 5 7).1 = 1 ∧
    (outlineMain ⟨1, 100, 1/2, true⟩
      (fun x y => if x = 0 ∧ y = 0 then (1 : ℚ)/2 else 1) 1 0).1 = 0 := by
  constructor
  · exact (outline_uniform_and_single_foreground ⟨1, 100, 1/2, true⟩).1
      (fun _ _ => 1) 1 (fun _ _ => rfl) 5 7
  · exact (outline_uniform_and_single_foreground ⟨1, 100, 1/2, true⟩).2
      (fun x y => if x = 0 ∧ y = 0 then (1 : ℚ)/2 else 1) (1/2) 1
      (by simp) (fun x y hxy => if_neg hxy) (by norm_num) (by norm_num)
      (by norm_num [backgroundViewZ, getViewZ, orthographicDepthToViewZ])
      1 0 (by norm_num) (by norm_num) (by norm_num) (by norm_num)
      (by simp)

end Molstar
